import Mathlib

/-!
# library-api: the books handlers of `app.js`

A shallow embedding of the request handlers of `src/app.js` (an Express
application over a lowdb JSON file) and of the values they manipulate,
followed by the properties of the handlers.

* JavaScript values are the type `Val`; a book record and a request body
  (`req.body` as `express.json()` parses it) are objects, `Obj`, kept as
  association lists in property order.
* `db.data.books` and the contents of `db.json` form the `Store`.
* A handler maps a store to an `Outcome`: the store it leaves behind and the
  effects it performed, in order (`db.write()` and `res.send`).
  `console.log` and the middleware (`morgan`, `cors`, swagger) are left out.
-/

namespace LibraryApi

/-! ## Values -/

/-- JavaScript values that a parsed JSON document or a property read can yield.
Numbers are kept as integers: the handlers only ever compare them. -/
inductive Val where
  | undefined : Val
  | null : Val
  | bool (b : Bool) : Val
  | num (n : Int) : Val
  | str (s : String) : Val
  | arr (items : List Val) : Val
  | obj (fields : List (String × Val)) : Val

mutual
/-- Deciding equality of values. -/
def Val.decEq : (a b : Val) → Decidable (a = b)
  | .undefined, .undefined => isTrue rfl
  | .null, .null => isTrue rfl
  | .bool x, .bool y =>
    if h : x = y then isTrue (by rw [h]) else isFalse (by intro e; cases e; exact h rfl)
  | .num x, .num y =>
    if h : x = y then isTrue (by rw [h]) else isFalse (by intro e; cases e; exact h rfl)
  | .str x, .str y =>
    if h : x = y then isTrue (by rw [h]) else isFalse (by intro e; cases e; exact h rfl)
  | .arr x, .arr y =>
    match Val.decEqList x y with
    | isTrue h => isTrue (by rw [h])
    | isFalse h => isFalse (by intro e; cases e; exact h rfl)
  | .obj x, .obj y =>
    match Val.decEqFields x y with
    | isTrue h => isTrue (by rw [h])
    | isFalse h => isFalse (by intro e; cases e; exact h rfl)
  | .undefined, .null => isFalse (by intro e; cases e)
  | .undefined, .bool _ => isFalse (by intro e; cases e)
  | .undefined, .num _ => isFalse (by intro e; cases e)
  | .undefined, .str _ => isFalse (by intro e; cases e)
  | .undefined, .arr _ => isFalse (by intro e; cases e)
  | .undefined, .obj _ => isFalse (by intro e; cases e)
  | .null, .undefined => isFalse (by intro e; cases e)
  | .null, .bool _ => isFalse (by intro e; cases e)
  | .null, .num _ => isFalse (by intro e; cases e)
  | .null, .str _ => isFalse (by intro e; cases e)
  | .null, .arr _ => isFalse (by intro e; cases e)
  | .null, .obj _ => isFalse (by intro e; cases e)
  | .bool _, .undefined => isFalse (by intro e; cases e)
  | .bool _, .null => isFalse (by intro e; cases e)
  | .bool _, .num _ => isFalse (by intro e; cases e)
  | .bool _, .str _ => isFalse (by intro e; cases e)
  | .bool _, .arr _ => isFalse (by intro e; cases e)
  | .bool _, .obj _ => isFalse (by intro e; cases e)
  | .num _, .undefined => isFalse (by intro e; cases e)
  | .num _, .null => isFalse (by intro e; cases e)
  | .num _, .bool _ => isFalse (by intro e; cases e)
  | .num _, .str _ => isFalse (by intro e; cases e)
  | .num _, .arr _ => isFalse (by intro e; cases e)
  | .num _, .obj _ => isFalse (by intro e; cases e)
  | .str _, .undefined => isFalse (by intro e; cases e)
  | .str _, .null => isFalse (by intro e; cases e)
  | .str _, .bool _ => isFalse (by intro e; cases e)
  | .str _, .num _ => isFalse (by intro e; cases e)
  | .str _, .arr _ => isFalse (by intro e; cases e)
  | .str _, .obj _ => isFalse (by intro e; cases e)
  | .arr _, .undefined => isFalse (by intro e; cases e)
  | .arr _, .null => isFalse (by intro e; cases e)
  | .arr _, .bool _ => isFalse (by intro e; cases e)
  | .arr _, .num _ => isFalse (by intro e; cases e)
  | .arr _, .str _ => isFalse (by intro e; cases e)
  | .arr _, .obj _ => isFalse (by intro e; cases e)
  | .obj _, .undefined => isFalse (by intro e; cases e)
  | .obj _, .null => isFalse (by intro e; cases e)
  | .obj _, .bool _ => isFalse (by intro e; cases e)
  | .obj _, .num _ => isFalse (by intro e; cases e)
  | .obj _, .str _ => isFalse (by intro e; cases e)
  | .obj _, .arr _ => isFalse (by intro e; cases e)
/-- Deciding equality of arrays of values. -/
def Val.decEqList : (a b : List Val) → Decidable (a = b)
  | [], [] => isTrue rfl
  | [], _ :: _ => isFalse (by intro e; cases e)
  | _ :: _, [] => isFalse (by intro e; cases e)
  | x :: xs, y :: ys =>
    match Val.decEq x y, Val.decEqList xs ys with
    | isTrue h, isTrue h2 => isTrue (by rw [h, h2])
    | isFalse h, _ => isFalse (by intro e; cases e; exact h rfl)
    | _, isFalse h => isFalse (by intro e; cases e; exact h rfl)
/-- Deciding equality of property lists. -/
def Val.decEqFields : (a b : List (String × Val)) → Decidable (a = b)
  | [], [] => isTrue rfl
  | [], _ :: _ => isFalse (by intro e; cases e)
  | _ :: _, [] => isFalse (by intro e; cases e)
  | (k, x) :: xs, (k2, y) :: ys =>
    if hk : k = k2 then
      match Val.decEq x y, Val.decEqFields xs ys with
      | isTrue h, isTrue h2 => isTrue (by rw [hk, h, h2])
      | isFalse h, _ => isFalse (by intro e; cases e; exact h rfl)
      | _, isFalse h => isFalse (by intro e; cases e; exact h rfl)
    else isFalse (by intro e; cases e; exact hk rfl)
end

instance : DecidableEq Val := Val.decEq

/-- An object: its own properties, in order. -/
abbrev Obj := List (String × Val)

/-- The operator `===` between a stored value and a value of the current
request. Arrays and objects are compared by reference, and the two sides never
hold the same reference, so they are never strictly equal. -/
def strictEq : Val → Val → Bool
  | .undefined, .undefined => true
  | .null, .null => true
  | .bool a, .bool b => a == b
  | .num a, .num b => a == b
  | .str a, .str b => a == b
  | _, _ => false

/-- Whether a value is a primitive (everything but arrays and objects). -/
def isPrimitive : Val → Bool
  | .arr _ => false
  | .obj _ => false
  | _ => true

/-- Whether `o` has an own property `k`. -/
def hasProp (o : Obj) (k : String) : Bool :=
  o.any (fun p => p.1 == k)

/-- Property read `o.k`: the value of the property, `undefined` when absent.
Should a key be listed twice, the later entry is the property, as in
`JSON.parse`. -/
def getProp : Obj → String → Val
  | [], _ => .undefined
  | p :: ps, k =>
    if hasProp ps k then getProp ps k
    else if p.1 = k then p.2
    else .undefined

/-- Property write `o.k = v`: overwrite in place, or add the property last. -/
def setProp (o : Obj) (k : String) (v : Val) : Obj :=
  if hasProp o k then o.map (fun p => if p.1 = k then (p.1, v) else p)
  else o ++ [(k, v)]

/-- Object spread `{ ...target, ...src }`: every property of `src` is written
onto `target`, in order. -/
def spread (target src : Obj) : Obj :=
  src.foldl (fun acc p => setProp acc p.1 p.2) target

/-! ## Store and effects -/

/-- The database: `db.data.books` in memory and the books last written to
`db.json`. -/
structure Store where
  books : List Obj
  file : List Obj
deriving DecidableEq

/-- An effect of a handler. -/
inductive Event where
  | write (contents : List Obj) : Event
  | send (status : Nat) (body : Val) : Event
deriving DecidableEq

/-- What a handler leaves behind: the store, and its effects in order. -/
structure Outcome where
  store : Store
  trace : List Event
deriving DecidableEq

/-- The status of the response, if one was sent. -/
def Outcome.status (o : Outcome) : Option Nat :=
  o.trace.findSome? (fun e => match e with
    | .send st _ => some st
    | .write _ => none)

/-- The body of the response, if one was sent. -/
def Outcome.body (o : Outcome) : Option Val :=
  o.trace.findSome? (fun e => match e with
    | .send _ b => some b
    | .write _ => none)

/-- The length of generated ids: `const idLength = 10`. -/
def idLength : Nat := 10

/-- The call `db.write()`: the whole collection replaces the file contents. -/
def dbWrite (s : Store) : Store :=
  { s with file := s.books }

/-- The object `{ message: m }`. -/
def message (m : String) : Val :=
  .obj [("message", .str m)]

/-- The test `b.id === req.params.id`. -/
def idIs (id : String) (b : Obj) : Bool :=
  strictEq (getProp b "id") (.str id)

/-- Apply `f` to the first element satisfying `p`: the in-place mutation of
the object that `Array.prototype.find` returned. -/
def updateFirst (p : Obj → Bool) (f : Obj → Obj) : List Obj → List Obj
  | [] => []
  | b :: bs => if p b then f b :: bs else b :: updateFirst p f bs

/-! ## Handlers -/

/-- Handler of `GET /`. -/
def getRoot (s : Store) : Outcome :=
  ⟨s, [.send 200 (.obj [("name", .str "Alive")])]⟩

/-- Handler of `GET /books`. -/
def getBooks (s : Store) : Outcome :=
  ⟨s, [.send 200 (.arr (s.books.map Val.obj))]⟩

/-- Handler of `GET /books/:id`. -/
def getBook (id : String) (s : Store) : Outcome :=
  match s.books.find? (idIs id) with
  | some book => ⟨s, [.send 200 (.obj book)]⟩
  | none => ⟨s, [.send 200 .undefined]⟩

/-- The record `{ id: nanoid(idLength), ...req.body }`, `gen` being the value
that `nanoid` returned. -/
def newDoc (gen : String) (body : Obj) : Obj :=
  spread [("id", .str gen)] body

/-- The test `b.id === req.body.id || b.name === req.body.name`. -/
def collides (body : Obj) (b : Obj) : Bool :=
  strictEq (getProp b "id") (getProp body "id")
    || strictEq (getProp b "name") (getProp body "name")

/-- Handler of `POST /books`. -/
def postBook (gen : String) (body : Obj) (s : Store) : Outcome :=
  let doc := newDoc gen body
  match s.books.find? (collides body) with
  | some _ => ⟨s, [.send 400 (message "Book already exists")]⟩
  | none =>
    let s1 : Store := { s with books := s.books ++ [doc] }
    let s2 := dbWrite s1
    ⟨s2, [.write s2.file, .send 200 (.obj doc)]⟩

/-- Handler of `PUT /books/:id`. -/
def putBook (id : String) (body : Obj) (s : Store) : Outcome :=
  match s.books.find? (idIs id) with
  | none => ⟨s, [.send 404 (message "Book with the given id was not found")]⟩
  | some _ =>
    let s1 : Store :=
      { s with books :=
          updateFirst (idIs id) (fun book => setProp book "name" (getProp body "name")) s.books }
    let s2 := dbWrite s1
    ⟨s2, [.write s2.file, .send 200 (message "Book updated successfully")]⟩

/-- Handler of `DELETE /books/:id`. -/
def deleteBook (id : String) (s : Store) : Outcome :=
  let book := s.books.filter (idIs id)
  if book.length ≤ 0 then
    ⟨s, [.send 404 (message "Book with the given id was not found")]⟩
  else
    let books := s.books.filter (fun b => !idIs id b)
    let s1 : Store := { s with books := books }
    let s2 := dbWrite s1
    ⟨s2, [.write s2.file, .send 200 (message "Book Deleted successfully")]⟩

/-- A request to one of the routes. -/
inductive Request where
  | root : Request
  | listBooks : Request
  | getBook (id : String) : Request
  | postBook (body : Obj) : Request
  | putBook (id : String) (body : Obj) : Request
  | deleteBook (id : String) : Request

/-- Dispatch of a request to its handler; `gen` is what `nanoid` returns
should the handler call it. -/
def handle (gen : String) (r : Request) (s : Store) : Outcome :=
  match r with
  | .root => getRoot s
  | .listBooks => getBooks s
  | .getBook id => getBook id s
  | .postBook body => postBook gen body s
  | .putBook id body => putBook id body s
  | .deleteBook id => deleteBook id s

/-- The routes that change the collection. -/
def Request.isMutating : Request → Bool
  | .postBook _ => true
  | .putBook _ _ => true
  | .deleteBook _ => true
  | _ => false

/-! ## Predicates of the specification -/

/-- No two records share an id. -/
def uniqueIds (books : List Obj) : Prop :=
  (books.map (fun b => getProp b "id")).Nodup

/-- No two records share a name. -/
def uniqueNames (books : List Obj) : Prop :=
  (books.map (fun b => getProp b "name")).Nodup

instance (books : List Obj) : Decidable (uniqueIds books) := by
  unfold uniqueIds; infer_instance

instance (books : List Obj) : Decidable (uniqueNames books) := by
  unfold uniqueNames; infer_instance

/-! ## Sample data -/

/-- A generated id. -/
def idA : String := "V1StGXR8_Z"

/-- Another generated id. -/
def idB : String := "3IBBoGSwF-"

/-- A third generated id. -/
def idC : String := "k9Xq2LmP0a"

/-- The record `{ id: idA, name: "Dune" }`. -/
def dune : Obj := [("id", .str idA), ("name", .str "Dune")]

/-- The record `{ id: idB, name: "Emma" }`. -/
def emma : Obj := [("id", .str idB), ("name", .str "Emma")]

/-- A body for `PUT /books/:id` that brings more than a name. -/
def retitle : Obj :=
  [("id", .str idC), ("name", .str "Persuasion"), ("year", .num 1817)]

/-- A store holding `dune` and `emma`, in step with its file. -/
def shelf : Store := ⟨[dune, emma], [dune, emma]⟩

/-- A store holding `dune` only. -/
def oneBook : Store := ⟨[dune], [dune]⟩

/-- A store of two records that have the same id. -/
def twins : Store :=
  ⟨[dune, [("id", .str idA), ("name", .str "Emma")]],
   [dune, [("id", .str idA), ("name", .str "Emma")]]⟩

/-- A store whose one record has no id. -/
def noIdShelf : Store :=
  ⟨[[("name", .str "Dune")]], [[("name", .str "Dune")]]⟩

/-- A store whose one record has an array for a name. -/
def oddShelf : Store :=
  ⟨[[("id", .str idA), ("name", .arr [.str "Dune"])]],
   [[("id", .str idA), ("name", .arr [.str "Dune"])]]⟩

/-! ## Objects: reading, writing and spreading properties -/

theorem strictEq_eq_true_iff (a b : Val) :
    strictEq a b = true ↔ a = b ∧ isPrimitive a = true := by
  cases a <;> cases b <;> simp [strictEq, isPrimitive]

theorem strictEq_str_iff (a : Val) (s : String) :
    strictEq a (.str s) = true ↔ a = .str s := by
  cases a <;> simp [strictEq]

theorem idIs_iff (id : String) (b : Obj) :
    idIs id b = true ↔ getProp b "id" = .str id := by
  simp [idIs, strictEq_str_iff]

theorem idIs_eq_false_iff (id : String) (b : Obj) :
    idIs id b = false ↔ getProp b "id" ≠ .str id := by
  rw [Ne, ← idIs_iff]; simp

theorem hasProp_cons (p : String × Val) (ps : Obj) (k : String) :
    hasProp (p :: ps) k = (p.1 == k || hasProp ps k) := by
  simp [hasProp]

theorem hasProp_append (o₁ o₂ : Obj) (k : String) :
    hasProp (o₁ ++ o₂) k = (hasProp o₁ k || hasProp o₂ k) := by
  simp [hasProp]

theorem getProp_of_not_has (o : Obj) (k : String) (h : hasProp o k = false) :
    getProp o k = .undefined := by
  induction o with
  | nil => rfl
  | cons p ps ih =>
    rw [hasProp_cons] at h
    simp only [Bool.or_eq_false_iff, beq_eq_false_iff_ne] at h
    simp [getProp, h.1, h.2]

theorem getProp_append_single (o : Obj) (k k' : String) (v : Val) :
    getProp (o ++ [(k, v)]) k' = if k = k' then v else getProp o k' := by
  induction o with
  | nil => simp [getProp, hasProp]
  | cons p ps ih =>
    have hc : getProp (p :: ps ++ [(k, v)]) k'
        = if hasProp (ps ++ [(k, v)]) k' then getProp (ps ++ [(k, v)]) k'
          else if p.1 = k' then p.2 else .undefined := rfl
    have hd : getProp (p :: ps) k'
        = if hasProp ps k' then getProp ps k'
          else if p.1 = k' then p.2 else .undefined := rfl
    rw [hc, hd, ih, hasProp_append]
    by_cases hk : k = k'
    · subst hk; simp [hasProp]
    · have hb : (k == k') = false := by simp [hk]
      have hh : hasProp [(k, v)] k' = false := by simp [hasProp, hb]
      simp only [hh, Bool.or_false, if_neg hk]

theorem hasProp_map_set (o : Obj) (k k' : String) (v : Val) :
    hasProp (o.map (fun p => if p.1 = k then (p.1, v) else p)) k' = hasProp o k' := by
  induction o with
  | nil => rfl
  | cons p ps ih =>
    rw [List.map_cons, hasProp_cons, hasProp_cons, ih]
    by_cases hp : p.1 = k <;> simp [hp]

theorem getProp_map_set (o : Obj) (k k' : String) (v : Val) :
    getProp (o.map (fun p => if p.1 = k then (p.1, v) else p)) k'
      = if k = k' ∧ hasProp o k' = true then v else getProp o k' := by
  induction o with
  | nil => simp [getProp, hasProp]
  | cons p ps ih =>
    have hc : getProp ((p :: ps).map (fun p => if p.1 = k then (p.1, v) else p)) k'
        = if hasProp (ps.map (fun p => if p.1 = k then (p.1, v) else p)) k'
          then getProp (ps.map (fun p => if p.1 = k then (p.1, v) else p)) k'
          else if (if p.1 = k then (p.1, v) else p).1 = k'
            then (if p.1 = k then (p.1, v) else p).2 else .undefined := rfl
    have hd : getProp (p :: ps) k'
        = if hasProp ps k' then getProp ps k'
          else if p.1 = k' then p.2 else .undefined := rfl
    rw [hc, hd, ih, hasProp_map_set, hasProp_cons]
    by_cases hk : k = k'
    · subst hk
      by_cases hps : hasProp ps k
      · simp [hps]
      · by_cases hp : p.1 = k <;> simp [hps, hp]
    · by_cases hps : hasProp ps k'
      · simp [hps, hk]
      · by_cases hp : p.1 = k
        · subst hp; simp [hps, hk]
        · simp [hps, hk, hp]

theorem getProp_setProp_same (o : Obj) (k : String) (v : Val) :
    getProp (setProp o k v) k = v := by
  unfold setProp
  by_cases h : hasProp o k
  · rw [if_pos h, getProp_map_set]; simp [h]
  · rw [if_neg h, getProp_append_single]; simp

theorem getProp_setProp_other (o : Obj) (k k' : String) (v : Val) (h : k' ≠ k) :
    getProp (setProp o k v) k' = getProp o k' := by
  unfold setProp
  have h' : ¬ k = k' := fun e => h e.symm
  by_cases hh : hasProp o k
  · rw [if_pos hh, getProp_map_set]; simp [h']
  · rw [if_neg hh, getProp_append_single]; simp [h']

theorem hasProp_setProp (o : Obj) (k k' : String) (v : Val) :
    hasProp (setProp o k v) k' = (hasProp o k' || k == k') := by
  unfold setProp
  by_cases hh : hasProp o k
  · rw [if_pos hh, hasProp_map_set]
    by_cases hk : k = k'
    · subst hk; simp [hh]
    · simp [hk]
  · rw [if_neg hh, hasProp_append]; simp [hasProp]

theorem getProp_spread (src target : Obj) (k : String) :
    getProp (spread target src) k
      = if hasProp src k then getProp src k else getProp target k := by
  induction src generalizing target with
  | nil => simp [spread, hasProp]
  | cons p ps ih =>
    have hs : spread target (p :: ps) = spread (setProp target p.1 p.2) ps := rfl
    have hd : getProp (p :: ps) k
        = if hasProp ps k then getProp ps k
          else if p.1 = k then p.2 else .undefined := rfl
    rw [hs, ih, hasProp_cons, hd]
    by_cases hps : hasProp ps k
    · simp [hps]
    · by_cases hp : p.1 = k
      · subst hp; simp [hps, getProp_setProp_same]
      · simp [hps, hp, getProp_setProp_other _ _ _ _ (Ne.symm hp)]

/-! ## The collection: searching and updating -/

theorem updateFirst_of_find (p : Obj → Bool) (f : Obj → Obj) (l : List Obj) (b : Obj)
    (h : l.find? p = some b) :
    ∃ pre post, l = pre ++ b :: post ∧ (∀ x ∈ pre, p x = false) ∧ p b = true
      ∧ updateFirst p f l = pre ++ f b :: post := by
  induction l with
  | nil => simp at h
  | cons a as ih =>
    by_cases ha : p a = true
    · have hab : a = b := by simpa [List.find?, ha] using h
      subst hab
      exact ⟨[], as, rfl, by simp, ha, by simp [updateFirst, ha]⟩
    · have h' : as.find? p = some b := by simpa [List.find?, ha] using h
      obtain ⟨pre, post, hl, hpre, hb, hu⟩ := ih h'
      refine ⟨a :: pre, post, by simp [hl], ?_, hb, by simp [updateFirst, ha, hu]⟩
      intro x hx
      rcases List.mem_cons.mp hx with rfl | hx
      · simpa using ha
      · exact hpre x hx

theorem find_idIs_eq_none (id : String) (l : List Obj) :
    l.find? (idIs id) = none ↔ ∀ b ∈ l, getProp b "id" ≠ .str id := by
  rw [List.find?_eq_none]
  constructor
  · intro h b hb; exact (idIs_eq_false_iff id b).mp (by simpa using h b hb)
  · intro h b hb; simpa using (idIs_eq_false_iff id b).mpr (h b hb)

theorem find_idIs_isSome (id : String) (l : List Obj)
    (h : ∃ b ∈ l, getProp b "id" = .str id) :
    ∃ b, l.find? (idIs id) = some b := by
  cases hf : l.find? (idIs id) with
  | some b => exact ⟨b, rfl⟩
  | none =>
    obtain ⟨b, hb, hid⟩ := h
    exact absurd hid ((find_idIs_eq_none id l).mp hf b hb)

theorem postBook_reject (gen : String) (body : Obj) (s : Store)
    (h : ∃ b ∈ s.books, collides body b = true) :
    postBook gen body s = ⟨s, [.send 400 (message "Book already exists")]⟩ := by
  unfold postBook
  cases hf : s.books.find? (collides body) with
  | some b => rfl
  | none =>
    obtain ⟨b, hb, hc⟩ := h
    have := (List.find?_eq_none.mp hf) b hb
    exact absurd hc this

theorem postBook_accept (gen : String) (body : Obj) (s : Store)
    (h : ∀ b ∈ s.books, collides body b = false) :
    postBook gen body s
      = ⟨⟨s.books ++ [newDoc gen body], s.books ++ [newDoc gen body]⟩,
          [.write (s.books ++ [newDoc gen body]), .send 200 (.obj (newDoc gen body))]⟩ := by
  unfold postBook
  cases hf : s.books.find? (collides body) with
  | none => rfl
  | some b =>
    have hm := List.mem_of_find?_eq_some hf
    have hp := List.find?_some hf
    rw [h b hm] at hp
    exact absurd hp (by simp)

theorem postBook_cases (body : Obj) (s : Store) :
    (∃ b ∈ s.books, collides body b = true) ∨ (∀ b ∈ s.books, collides body b = false) := by
  by_cases h : ∃ b ∈ s.books, collides body b = true
  · exact Or.inl h
  · refine Or.inr ?_
    intro b hb
    cases hc : collides body b with
    | false => rfl
    | true => exact absurd ⟨b, hb, hc⟩ h

theorem postBook_status_200 (gen : String) (body : Obj) (s : Store)
    (h : (postBook gen body s).status = some 200) :
    ∀ b ∈ s.books, collides body b = false := by
  rcases postBook_cases body s with hc | hc
  · rw [postBook_reject gen body s hc] at h
    simp [Outcome.status] at h
  · exact hc

/-! ## The handlers, case by case -/

theorem getProp_newDoc_name (gen : String) (body : Obj) :
    getProp (newDoc gen body) "name" = getProp body "name" := by
  unfold newDoc
  rw [getProp_spread]
  by_cases h : hasProp body "name" = true
  · rw [if_pos h]
  · rw [if_neg h]
    have h' : hasProp body "name" = false := by simpa using h
    rw [getProp_of_not_has body "name" h']
    exact getProp_of_not_has _ _ (by simp [hasProp])

theorem getProp_newDoc_id (gen : String) (body : Obj) :
    getProp (newDoc gen body) "id"
      = if hasProp body "id" then getProp body "id" else .str gen := by
  unfold newDoc
  rw [getProp_spread]
  rfl

theorem putBook_found (id : String) (body : Obj) (s : Store) (b : Obj)
    (h : s.books.find? (idIs id) = some b) :
    putBook id body s
      = ⟨⟨updateFirst (idIs id) (fun book => setProp book "name" (getProp body "name")) s.books,
           updateFirst (idIs id) (fun book => setProp book "name" (getProp body "name")) s.books⟩,
          [.write (updateFirst (idIs id)
              (fun book => setProp book "name" (getProp body "name")) s.books),
           .send 200 (message "Book updated successfully")]⟩ := by
  unfold putBook
  rw [h]
  rfl

theorem putBook_missing (id : String) (body : Obj) (s : Store)
    (h : ∀ b ∈ s.books, getProp b "id" ≠ .str id) :
    putBook id body s
      = ⟨s, [.send 404 (message "Book with the given id was not found")]⟩ := by
  unfold putBook
  rw [(find_idIs_eq_none id s.books).mpr h]

theorem filter_idIs_eq_nil (id : String) (l : List Obj) :
    l.filter (idIs id) = [] ↔ ∀ b ∈ l, getProp b "id" ≠ .str id := by
  rw [List.filter_eq_nil_iff]
  constructor
  · intro h b hb; exact (idIs_eq_false_iff id b).mp (by simpa using h b hb)
  · intro h b hb; simpa using (idIs_eq_false_iff id b).mpr (h b hb)

theorem deleteBook_missing (id : String) (s : Store)
    (h : ∀ b ∈ s.books, getProp b "id" ≠ .str id) :
    deleteBook id s
      = ⟨s, [.send 404 (message "Book with the given id was not found")]⟩ := by
  unfold deleteBook
  simp [(filter_idIs_eq_nil id s.books).mpr h]

theorem deleteBook_found (id : String) (s : Store)
    (h : ∃ b ∈ s.books, getProp b "id" = .str id) :
    deleteBook id s
      = ⟨⟨s.books.filter (fun b => !idIs id b), s.books.filter (fun b => !idIs id b)⟩,
          [.write (s.books.filter (fun b => !idIs id b)),
           .send 200 (message "Book Deleted successfully")]⟩ := by
  unfold deleteBook
  have hne : s.books.filter (idIs id) ≠ [] := by
    intro hnil
    obtain ⟨b, hb, hid⟩ := h
    exact (filter_idIs_eq_nil id s.books).mp hnil b hb hid
  have hlen : ¬ (s.books.filter (idIs id)).length ≤ 0 := by
    intro hle
    exact hne (List.length_eq_zero.mp (Nat.le_zero.mp hle))
  simp only [hlen, if_false]
  rfl

theorem map_updateFirst (g : Obj → Val) (p : Obj → Bool) (f : Obj → Obj)
    (hf : ∀ b, g (f b) = g b) (l : List Obj) :
    (updateFirst p f l).map g = l.map g := by
  induction l with
  | nil => rfl
  | cons a as ih =>
    by_cases ha : p a = true
    · simp [updateFirst, ha, hf]
    · simp [updateFirst, ha, ih]

theorem newDoc_id_fresh (gen : String) (body : Obj) (s : Store)
    (hacc : ∀ b ∈ s.books, collides body b = false)
    (hfresh : (hasProp body "id" = true ∧ isPrimitive (getProp body "id") = true)
      ∨ (hasProp body "id" = false ∧ ∀ b ∈ s.books, getProp b "id" ≠ .str gen)) :
    ∀ b ∈ s.books, getProp b "id" ≠ getProp (newDoc gen body) "id" := by
  intro b hb
  rw [getProp_newDoc_id]
  rcases hfresh with ⟨hhas, hprim⟩ | ⟨hhas, hfr⟩
  · rw [if_pos hhas]
    intro heq
    have hc := hacc b hb
    unfold collides at hc
    rw [Bool.or_eq_false_iff] at hc
    have ht : strictEq (getProp b "id") (getProp body "id") = true :=
      (strictEq_eq_true_iff _ _).mpr ⟨heq, by rw [heq]; exact hprim⟩
    rw [hc.1] at ht
    exact absurd ht (by simp)
  · have : ¬ hasProp body "id" = true := by simp [hhas]
    rw [if_neg this]
    exact hfr b hb

/-! ## Creation: duplicates and generated ids -/

/-- C1, as stated, fails twice. A name that is an array and equals the name of
a stored record is not detected: the handler answers 200 and appends. And a
payload whose name is unused but whose own id is taken is rejected both times,
so that issuing it twice grows the collection by 0, not by 1. -/
theorem C1_counterexample :
    ((∃ b ∈ oddShelf.books, getProp b "name" = getProp [("name", .arr [.str "Dune"])] "name")
      ∧ (postBook idB [("name", .arr [.str "Dune"])] oddShelf).status = some 200
      ∧ (postBook idB [("name", .arr [.str "Dune"])] oddShelf).store.books.length
          = oddShelf.books.length + 1)
    ∧ ((∀ b ∈ shelf.books,
          getProp b "name" ≠ getProp [("id", .str idA), ("name", .str "Ulysses")] "name")
      ∧ (postBook idC [("id", .str idA), ("name", .str "Ulysses")]
          (postBook idB [("id", .str idA), ("name", .str "Ulysses")] shelf).store).store.books.length
          = shelf.books.length) := by
  decide

/-- C1, amended. For a body whose name is a primitive (a string, a number, a
boolean, null, or absent): if the name equals the name of a stored record,
`POST /books` answers 400 with "Book already exists", leaves memory and file
as they were and writes nothing; and once such a payload has been accepted,
issuing it again is rejected, so that the two calls grow the collection by
exactly 1. -/
theorem C1_duplicate_name_rejected (s : Store) (body : Obj) (g1 g2 : String)
    (hprim : isPrimitive (getProp body "name") = true) :
    ((∃ b ∈ s.books, getProp b "name" = getProp body "name") →
        postBook g1 body s = ⟨s, [.send 400 (message "Book already exists")]⟩)
    ∧ ((postBook g1 body s).status = some 200 →
        postBook g2 body (postBook g1 body s).store
            = ⟨(postBook g1 body s).store, [.send 400 (message "Book already exists")]⟩
          ∧ (postBook g2 body (postBook g1 body s).store).store.books.length
              = s.books.length + 1) := by
  have hself : ∀ v : Val, v = getProp body "name" → strictEq v (getProp body "name") = true := by
    intro v hv
    exact (strictEq_eq_true_iff _ _).mpr ⟨hv, by rw [hv]; exact hprim⟩
  constructor
  · rintro ⟨b, hb, hname⟩
    refine postBook_reject g1 body s ⟨b, hb, ?_⟩
    unfold collides
    rw [hself _ hname, Bool.or_true]
  · intro hok
    have hacc := postBook_status_200 g1 body s hok
    have hrej : postBook g2 body (postBook g1 body s).store
        = ⟨(postBook g1 body s).store, [.send 400 (message "Book already exists")]⟩ := by
      refine postBook_reject g2 body _ ⟨newDoc g1 body, ?_, ?_⟩
      · rw [postBook_accept g1 body s hacc]; simp
      · unfold collides
        rw [hself _ (getProp_newDoc_name g1 body), Bool.or_true]
    refine ⟨hrej, ?_⟩
    rw [hrej, postBook_accept g1 body s hacc]
    simp

/-- C1, amended, at work: "Dune" is refused on a shelf that holds it, and
"Ulysses" sent twice adds one record. -/
theorem C1_duplicate_name_rejected_witness :
    isPrimitive (getProp [("name", .str "Dune")] "name") = true
    ∧ postBook idC [("name", .str "Dune")] shelf
        = ⟨shelf, [.send 400 (message "Book already exists")]⟩
    ∧ (postBook idA [("name", .str "Ulysses")]
        (postBook idC [("name", .str "Ulysses")] shelf).store).store.books.length = 3 :=
  ⟨by decide,
   (C1_duplicate_name_rejected shelf [("name", .str "Dune")] idC idC (by decide)).1
     ⟨dune, by decide, by decide⟩,
   ((C1_duplicate_name_rejected shelf [("name", .str "Ulysses")] idC idA (by decide)).2
     (by decide)).2⟩

/-- C2, as stated, fails. With a name that is unused and a generated id of
length 10: the generated id may be the id of a stored record, and is then
given to the new record all the same; a body that brings its own id gets that
id, here the empty string, not the generated one; a body whose own id is taken
is refused; and so is a body without id when a stored record has no id. -/
theorem C2_counterexample :
    (idA.length = idLength
      ∧ (∀ b ∈ oneBook.books, getProp b "name" ≠ getProp [("name", .str "Emma")] "name")
      ∧ postBook idA [("name", .str "Emma")] oneBook
          = ⟨⟨[dune, [("id", .str idA), ("name", .str "Emma")]],
               [dune, [("id", .str idA), ("name", .str "Emma")]]⟩,
              [.write [dune, [("id", .str idA), ("name", .str "Emma")]],
               .send 200 (.obj [("id", .str idA), ("name", .str "Emma")])]⟩
      ∧ ∃ b ∈ oneBook.books,
          getProp b "id" = getProp [("id", .str idA), ("name", .str "Emma")] "id")
    ∧ (idB.length = idLength
      ∧ (∀ b ∈ oneBook.books,
          getProp b "name" ≠ getProp [("id", .str ""), ("name", .str "Emma")] "name")
      ∧ (postBook idB [("id", .str ""), ("name", .str "Emma")] oneBook).body
          = some (.obj [("id", .str ""), ("name", .str "Emma")]))
    ∧ ((∀ b ∈ oneBook.books,
          getProp b "name" ≠ getProp [("id", .str idA), ("name", .str "Emma")] "name")
      ∧ (postBook idB [("id", .str idA), ("name", .str "Emma")] oneBook).status = some 400)
    ∧ ((∀ b ∈ noIdShelf.books, getProp b "name" ≠ getProp [("name", .str "Emma")] "name")
      ∧ (postBook idB [("name", .str "Emma")] noIdShelf).status = some 400) := by
  decide

/-- C2, amended. In a collection whose records all have an id, for a generated
id of length 10 that no stored record has, and for a body with no id of its
own whose name is not the name of any stored record, `POST /books` succeeds
with the record `{ id: gen, ...body }`, whose id is the generated one, is not
empty, and differs from the id of every record stored before. -/
theorem C2_created_id_is_generated (s : Store) (gen : String) (body : Obj)
    (hlen : gen.length = idLength)
    (hnoid : hasProp body "id" = false)
    (hids : ∀ b ∈ s.books, getProp b "id" ≠ .undefined)
    (hfresh : ∀ b ∈ s.books, getProp b "id" ≠ .str gen)
    (hname : ∀ b ∈ s.books, getProp b "name" ≠ getProp body "name") :
    (postBook gen body s).status = some 200
    ∧ (postBook gen body s).body = some (.obj (newDoc gen body))
    ∧ getProp (newDoc gen body) "id" = .str gen
    ∧ gen ≠ ""
    ∧ ∀ b ∈ s.books, getProp b "id" ≠ getProp (newDoc gen body) "id" := by
  have hacc : ∀ b ∈ s.books, collides body b = false := by
    intro b hb
    unfold collides
    rw [Bool.or_eq_false_iff]
    constructor
    · cases h : strictEq (getProp b "id") (getProp body "id") with
      | false => rfl
      | true =>
        have := ((strictEq_eq_true_iff _ _).mp h).1
        rw [getProp_of_not_has body "id" hnoid] at this
        exact absurd this (hids b hb)
    · cases h : strictEq (getProp b "name") (getProp body "name") with
      | false => rfl
      | true => exact absurd ((strictEq_eq_true_iff _ _).mp h).1 (hname b hb)
  have hid : getProp (newDoc gen body) "id" = .str gen := by
    rw [getProp_newDoc_id, hnoid]; rfl
  refine ⟨?_, ?_, hid, ?_, ?_⟩
  · rw [postBook_accept gen body s hacc]; rfl
  · rw [postBook_accept gen body s hacc]; rfl
  · intro he
    rw [he] at hlen
    exact absurd hlen (by decide)
  · intro b hb
    rw [hid]
    exact hfresh b hb

/-- C2, amended, at work: "Emma" is created beside "Dune" with the id `idB`. -/
theorem C2_created_id_is_generated_witness :
    (postBook idB [("name", .str "Emma")] oneBook).status = some 200
    ∧ (postBook idB [("name", .str "Emma")] oneBook).body
        = some (.obj (newDoc idB [("name", .str "Emma")]))
    ∧ getProp (newDoc idB [("name", .str "Emma")]) "id" = .str idB
    ∧ idB ≠ ""
    ∧ ∀ b ∈ oneBook.books, getProp b "id" ≠ getProp (newDoc idB [("name", .str "Emma")]) "id" :=
  C2_created_id_is_generated oneBook idB [("name", .str "Emma")]
    (by decide) (by decide) (by decide) (by decide) (by decide)

/-! ## Uniqueness of ids -/

/-- C3, as stated, fails: `POST /books` does not compare the generated id with
the stored ones, so a generated id that is already in use leaves two records
with the same id. So does an id brought by the body that is an array: `===`
holds of no array, and the same array is accepted twice. -/
theorem C3_counterexample :
    (uniqueIds oneBook.books
      ∧ ¬ uniqueIds (handle idA (.postBook [("name", .str "Emma")]) oneBook).store.books)
    ∧ (uniqueIds
          (handle idB (.postBook [("id", .arr [.str "a"]), ("name", .str "Emma")])
            oneBook).store.books
      ∧ ¬ uniqueIds
          (handle idC (.postBook [("id", .arr [.str "a"]), ("name", .str "Ulysses")])
            (handle idB (.postBook [("id", .arr [.str "a"]), ("name", .str "Emma")])
              oneBook).store).store.books) := by
  decide

/-- C3, amended. In a collection where no two records share an id, every
request to `GET /`, `GET /books`, `GET /books/:id`, `PUT /books/:id` and
`DELETE /books/:id` leaves a collection where no two records share an id, and
so does `POST /books` when the body brings a primitive id of its own (which
the handler checks) or brings none and the generated id is not in use. -/
theorem C3_unique_ids_preserved (gen : String) (r : Request) (s : Store)
    (hu : uniqueIds s.books)
    (hpost : ∀ body, r = .postBook body →
      (hasProp body "id" = true ∧ isPrimitive (getProp body "id") = true)
        ∨ (hasProp body "id" = false ∧ ∀ b ∈ s.books, getProp b "id" ≠ .str gen)) :
    uniqueIds (handle gen r s).store.books := by
  cases r with
  | root => exact hu
  | listBooks => exact hu
  | getBook id =>
    show uniqueIds (getBook id s).store.books
    unfold getBook
    cases s.books.find? (idIs id) <;> exact hu
  | postBook body =>
    show uniqueIds (postBook gen body s).store.books
    rcases postBook_cases body s with hc | hc
    · rw [postBook_reject gen body s hc]; exact hu
    · rw [postBook_accept gen body s hc]
      have hfr := newDoc_id_fresh gen body s hc (hpost body rfl)
      unfold uniqueIds at hu ⊢
      rw [List.map_append, List.nodup_append]
      refine ⟨hu, by simp, ?_⟩
      intro v hv hv'
      rw [List.mem_map] at hv
      obtain ⟨b, hb, rfl⟩ := hv
      simp only [List.map_cons, List.map_nil, List.mem_singleton] at hv'
      exact hfr b hb hv'
  | putBook id body =>
    show uniqueIds (putBook id body s).store.books
    cases hf : s.books.find? (idIs id) with
    | none =>
      rw [putBook_missing id body s ((find_idIs_eq_none id s.books).mp hf)]; exact hu
    | some b =>
      rw [putBook_found id body s b hf]
      unfold uniqueIds at hu ⊢
      show ((updateFirst (idIs id)
        (fun book => setProp book "name" (getProp body "name")) s.books).map
          (fun b => getProp b "id")).Nodup
      rw [map_updateFirst (fun b => getProp b "id")]
      · exact hu
      · intro b
        exact getProp_setProp_other b "name" "id" _ (by decide)
  | deleteBook id =>
    show uniqueIds (deleteBook id s).store.books
    by_cases h : ∃ b ∈ s.books, getProp b "id" = .str id
    · rw [deleteBook_found id s h]
      unfold uniqueIds at hu ⊢
      exact hu.sublist ((List.filter_sublist _).map _)
    · have h' : ∀ b ∈ s.books, getProp b "id" ≠ .str id := by
        intro b hb hid; exact h ⟨b, hb, hid⟩
      rw [deleteBook_missing id s h']; exact hu

/-- C3, amended, at work: creating "Emma" beside "Dune" with the fresh id
`idB`. -/
theorem C3_unique_ids_preserved_witness :
    uniqueIds oneBook.books
    ∧ uniqueIds (handle idB (.postBook [("name", .str "Emma")]) oneBook).store.books :=
  ⟨by decide,
   C3_unique_ids_preserved idB (.postBook [("name", .str "Emma")]) oneBook (by decide)
     (by
       intro body h
       cases h
       exact Or.inr (by decide))⟩

/-! ## Update -/

/-- C4. When some record has the id, `PUT /books/:id` answers 200 with "Book
updated successfully"; the collection is the old one with the first record of
that id replaced by itself with `name` set to the name of the body: the name
of that record is now the body's, each of its other properties (the id among
them) is present and valued as before, the records before and after it are
the same, in the same places, and two bodies with the same name have the same
effect. -/
theorem C4_put_changes_only_name (s : Store) (id : String) (body : Obj)
    (h : ∃ b ∈ s.books, getProp b "id" = .str id) :
    ∃ pre b post,
      s.books = pre ++ b :: post
      ∧ (∀ x ∈ pre, getProp x "id" ≠ .str id)
      ∧ getProp b "id" = .str id
      ∧ (putBook id body s).status = some 200
      ∧ (putBook id body s).body = some (message "Book updated successfully")
      ∧ (putBook id body s).store.books
          = pre ++ setProp b "name" (getProp body "name") :: post
      ∧ getProp (setProp b "name" (getProp body "name")) "name" = getProp body "name"
      ∧ (∀ k, k ≠ "name" →
          getProp (setProp b "name" (getProp body "name")) k = getProp b k
          ∧ hasProp (setProp b "name" (getProp body "name")) k = hasProp b k)
      ∧ (putBook id body s).store.books.length = s.books.length
      ∧ (∀ body', getProp body' "name" = getProp body "name" →
          putBook id body' s = putBook id body s) := by
  obtain ⟨b, hf⟩ := find_idIs_isSome id s.books h
  obtain ⟨pre, post, hl, hpre, hb, hu⟩ :=
    updateFirst_of_find (idIs id) (fun book => setProp book "name" (getProp body "name"))
      s.books b hf
  refine ⟨pre, b, post, hl, ?_, (idIs_iff id b).mp hb, ?_, ?_, ?_, ?_, ?_, ?_, ?_⟩
  · intro x hx; exact (idIs_eq_false_iff id x).mp (hpre x hx)
  · rw [putBook_found id body s b hf]; rfl
  · rw [putBook_found id body s b hf]; rfl
  · rw [putBook_found id body s b hf]; exact hu
  · exact getProp_setProp_same b "name" _
  · intro k hk
    refine ⟨getProp_setProp_other b "name" k _ hk, ?_⟩
    rw [hasProp_setProp]
    have : ("name" == k) = false := by simpa using (Ne.symm hk)
    rw [this, Bool.or_false]
  · rw [putBook_found id body s b hf]
    show (updateFirst _ _ s.books).length = s.books.length
    rw [hu, hl]; simp
  · intro body' hb'
    rw [putBook_found id body s b hf, putBook_found id body' s b hf, hb']

/-- C4 at work: renaming "Emma" on the shelf, with a body that also brings an
id and a year. -/
theorem C4_put_changes_only_name_witness :
    (∃ b ∈ shelf.books, getProp b "id" = .str idB)
    ∧ ∃ pre b post,
      shelf.books = pre ++ b :: post
      ∧ (∀ x ∈ pre, getProp x "id" ≠ .str idB)
      ∧ getProp b "id" = .str idB
      ∧ (putBook idB retitle shelf).status = some 200
      ∧ (putBook idB retitle shelf).body = some (message "Book updated successfully")
      ∧ (putBook idB retitle shelf).store.books
          = pre ++ setProp b "name" (getProp retitle "name") :: post
      ∧ getProp (setProp b "name" (getProp retitle "name")) "name" = getProp retitle "name"
      ∧ (∀ k, k ≠ "name" →
          getProp (setProp b "name" (getProp retitle "name")) k = getProp b k
          ∧ hasProp (setProp b "name" (getProp retitle "name")) k = hasProp b k)
      ∧ (putBook idB retitle shelf).store.books.length = shelf.books.length
      ∧ (∀ body', getProp body' "name" = getProp retitle "name" →
          putBook idB body' shelf = putBook idB retitle shelf) :=
  ⟨⟨emma, by decide, by decide⟩,
   C4_put_changes_only_name shelf idB retitle ⟨emma, by decide, by decide⟩⟩

/-! ## Missing ids -/

/-- C5. When no record has the id, `PUT /books/:id` and `DELETE /books/:id`
both answer 404 with "Book with the given id was not found" and do nothing
else: the collection in memory and the file are as before, and no write is
among the effects. -/
theorem C5_missing_id_not_found (s : Store) (id : String) (body : Obj)
    (h : ∀ b ∈ s.books, getProp b "id" ≠ .str id) :
    (putBook id body s
        = ⟨s, [.send 404 (message "Book with the given id was not found")]⟩
      ∧ ∀ c, Event.write c ∉ (putBook id body s).trace)
    ∧ (deleteBook id s
        = ⟨s, [.send 404 (message "Book with the given id was not found")]⟩
      ∧ ∀ c, Event.write c ∉ (deleteBook id s).trace) := by
  refine ⟨⟨putBook_missing id body s h, ?_⟩, ⟨deleteBook_missing id s h, ?_⟩⟩
  · intro c; rw [putBook_missing id body s h]; simp
  · intro c; rw [deleteBook_missing id s h]; simp

/-- C5 at work: the id `idC` is not on the shelf. -/
theorem C5_missing_id_not_found_witness :
    (∀ b ∈ shelf.books, getProp b "id" ≠ .str idC)
    ∧ (putBook idC retitle shelf
        = ⟨shelf, [.send 404 (message "Book with the given id was not found")]⟩
      ∧ ∀ c, Event.write c ∉ (putBook idC retitle shelf).trace)
    ∧ (deleteBook idC shelf
        = ⟨shelf, [.send 404 (message "Book with the given id was not found")]⟩
      ∧ ∀ c, Event.write c ∉ (deleteBook idC shelf).trace) :=
  ⟨by decide, C5_missing_id_not_found shelf idC retitle (by decide)⟩

/-! ## Deletion -/

/-- C6, as stated, fails: `DELETE /books/:id` removes every record that has
the id. Where two records have it, the answer is 200 and the collection is
shorter by 2. -/
theorem C6_counterexample :
    (∃ b ∈ twins.books, getProp b "id" = .str idA)
    ∧ (deleteBook idA twins).status = some 200
    ∧ (deleteBook idA twins).store.books.length + 2 = twins.books.length := by
  decide

/-- C6, amended. When exactly one record has the id, `DELETE /books/:id`
answers 200 with "Book Deleted successfully" and the collection is shorter by
exactly 1: it is the old one without the records of that id, the others kept
in their order, and `GET /books/:id` then finds no record (it answers with an
empty body). -/
theorem C6_delete_removes_the_record (s : Store) (id : String)
    (hone : (s.books.filter (idIs id)).length = 1) :
    (deleteBook id s).status = some 200
    ∧ (deleteBook id s).body = some (message "Book Deleted successfully")
    ∧ (deleteBook id s).store.books.length + 1 = s.books.length
    ∧ (deleteBook id s).store.books = s.books.filter (fun b => getProp b "id" ≠ .str id)
    ∧ (deleteBook id s).store.books.Sublist s.books
    ∧ (∀ b, b ∈ (deleteBook id s).store.books ↔ b ∈ s.books ∧ getProp b "id" ≠ .str id)
    ∧ (getBook id (deleteBook id s).store).body = some .undefined := by
  have hex : ∃ b ∈ s.books, getProp b "id" = .str id := by
    cases hf : s.books.filter (idIs id) with
    | nil => rw [hf] at hone; simp at hone
    | cons b bs =>
      have hm : b ∈ s.books.filter (idIs id) := by rw [hf]; simp
      rw [List.mem_filter] at hm
      exact ⟨b, hm.1, (idIs_iff id b).mp hm.2⟩
  have hbooks : (deleteBook id s).store.books = s.books.filter (fun b => !idIs id b) := by
    rw [deleteBook_found id s hex]
  have hfil : s.books.filter (fun b => !idIs id b)
      = s.books.filter (fun b => getProp b "id" ≠ .str id) := by
    apply List.filter_congr
    intro b _
    by_cases hb : getProp b "id" = .str id
    · simp [(idIs_iff id b).mpr hb, hb]
    · simp [(idIs_eq_false_iff id b).mpr hb, hb]
  have hmem : ∀ b, b ∈ (deleteBook id s).store.books ↔ b ∈ s.books ∧ getProp b "id" ≠ .str id := by
    intro b
    rw [hbooks, hfil, List.mem_filter]
    simp
  refine ⟨?_, ?_, ?_, ?_, ?_, hmem, ?_⟩
  · rw [deleteBook_found id s hex]; rfl
  · rw [deleteBook_found id s hex]; rfl
  · rw [hbooks]
    have := List.length_eq_length_filter_add (l := s.books) (idIs id)
    rw [hone] at this
    omega
  · rw [hbooks, hfil]
  · rw [hbooks]; exact List.filter_sublist _
  · have hnone : (deleteBook id s).store.books.find? (idIs id) = none := by
      rw [find_idIs_eq_none]
      intro b hb
      exact ((hmem b).mp hb).2
    unfold getBook
    rw [hnone]
    rfl

/-- C6, amended, at work: deleting "Dune" from the shelf. -/
theorem C6_delete_removes_the_record_witness :
    (shelf.books.filter (idIs idA)).length = 1
    ∧ (deleteBook idA shelf).status = some 200
    ∧ (deleteBook idA shelf).body = some (message "Book Deleted successfully")
    ∧ (deleteBook idA shelf).store.books.length + 1 = shelf.books.length
    ∧ (deleteBook idA shelf).store.books
        = shelf.books.filter (fun b => getProp b "id" ≠ .str idA)
    ∧ (deleteBook idA shelf).store.books.Sublist shelf.books
    ∧ (∀ b, b ∈ (deleteBook idA shelf).store.books
        ↔ b ∈ shelf.books ∧ getProp b "id" ≠ .str idA)
    ∧ (getBook idA (deleteBook idA shelf).store).body = some .undefined :=
  ⟨by decide, C6_delete_removes_the_record shelf idA (by decide)⟩

/-! ## Creation, then lookup -/

/-- C7, as stated, fails. When the generated id is already the id of a stored
record, `POST /books` succeeds and `GET /books/:id` with the returned id finds
the older record, not the one created. And when the body brings a number for
an id, the record created has that number for id, which no path parameter,
being a string, is strictly equal to: the lookup finds nothing. -/
theorem C7_counterexample :
    ((postBook idA [("name", .str "Emma")] oneBook).status = some 200
      ∧ (postBook idA [("name", .str "Emma")] oneBook).body
          = some (.obj [("id", .str idA), ("name", .str "Emma")])
      ∧ (getBook idA (postBook idA [("name", .str "Emma")] oneBook).store).body
          = some (.obj dune)
      ∧ dune ≠ [("id", .str idA), ("name", .str "Emma")])
    ∧ ((postBook idB [("id", .num 7), ("name", .str "Emma")] oneBook).body
          = some (.obj [("id", .num 7), ("name", .str "Emma")])
      ∧ (getBook "7" (postBook idB [("id", .num 7), ("name", .str "Emma")] oneBook).store).body
          = some .undefined) := by
  decide

/-- C7, amended. When `POST /books` accepts a body, the id of the record it
returns is a string and, should the body bring no id of its own, the generated
id is not the id of a stored record, then `GET /books/:id` with that id
returns the very record that was created, `{ id: gen, ...body }`. -/
theorem C7_created_record_is_found (s : Store) (gen : String) (body : Obj) (sid : String)
    (hok : (postBook gen body s).status = some 200)
    (hid : getProp (newDoc gen body) "id" = .str sid)
    (hfresh : hasProp body "id" = false → ∀ b ∈ s.books, getProp b "id" ≠ .str gen) :
    (postBook gen body s).body = some (.obj (newDoc gen body))
    ∧ (getBook sid (postBook gen body s).store).body = some (.obj (newDoc gen body))
    ∧ (getBook sid (postBook gen body s).store).status = some 200 := by
  have hacc := postBook_status_200 gen body s hok
  have hprim : hasProp body "id" = true → isPrimitive (getProp body "id") = true := by
    intro hhas
    rw [getProp_newDoc_id, if_pos hhas] at hid
    rw [hid]; rfl
  have hfr : ∀ b ∈ s.books, getProp b "id" ≠ .str sid := by
    rw [← hid]
    apply newDoc_id_fresh gen body s hacc
    cases hhas : hasProp body "id" with
    | true => exact Or.inl ⟨rfl, hprim hhas⟩
    | false => exact Or.inr ⟨rfl, hfresh hhas⟩
  have hfind : (s.books ++ [newDoc gen body]).find? (idIs sid) = some (newDoc gen body) := by
    rw [List.find?_append, (find_idIs_eq_none sid s.books).mpr hfr]
    simp [List.find?, (idIs_iff sid (newDoc gen body)).mpr hid]
  rw [postBook_accept gen body s hacc]
  refine ⟨rfl, ?_, ?_⟩
  · unfold getBook
    simp only [hfind]
    rfl
  · unfold getBook
    simp only [hfind]
    rfl

/-- C7, amended, at work: "Emma" created beside "Dune" with the fresh id `idB`
is found again. -/
theorem C7_created_record_is_found_witness :
    (postBook idB [("name", .str "Emma")] oneBook).status = some 200
    ∧ (postBook idB [("name", .str "Emma")] oneBook).body
        = some (.obj (newDoc idB [("name", .str "Emma")]))
    ∧ (getBook idB (postBook idB [("name", .str "Emma")] oneBook).store).body
        = some (.obj (newDoc idB [("name", .str "Emma")]))
    ∧ (getBook idB (postBook idB [("name", .str "Emma")] oneBook).store).status = some 200 :=
  ⟨by decide,
   C7_created_record_is_found oneBook idB [("name", .str "Emma")] idB
     (by decide) (by decide) (by decide)⟩

/-! ## Persistence -/

/-- C8. After `POST /books`, `PUT /books/:id` or `DELETE /books/:id` has
answered 200, the file holds the collection that is in memory, and the effects
of the handler are one write of that collection followed by the response: the
file is in step before the answer is sent. -/
theorem C8_write_through (gen : String) (r : Request) (s : Store)
    (hmut : r.isMutating = true)
    (hok : (handle gen r s).status = some 200) :
    (handle gen r s).store.file = (handle gen r s).store.books
    ∧ ∃ body, (handle gen r s).trace
        = [.write (handle gen r s).store.books, .send 200 body] := by
  cases r with
  | root => simp [Request.isMutating] at hmut
  | listBooks => simp [Request.isMutating] at hmut
  | getBook id => simp [Request.isMutating] at hmut
  | postBook body =>
    change (postBook gen body s).status = some 200 at hok
    show (postBook gen body s).store.file = (postBook gen body s).store.books
      ∧ ∃ b, (postBook gen body s).trace = [.write (postBook gen body s).store.books, .send 200 b]
    rw [postBook_accept gen body s (postBook_status_200 gen body s hok)]
    exact ⟨rfl, _, rfl⟩
  | putBook id body =>
    change (putBook id body s).status = some 200 at hok
    show (putBook id body s).store.file = (putBook id body s).store.books
      ∧ ∃ b, (putBook id body s).trace = [.write (putBook id body s).store.books, .send 200 b]
    cases hf : s.books.find? (idIs id) with
    | none =>
      rw [putBook_missing id body s ((find_idIs_eq_none id s.books).mp hf)] at hok
      simp [Outcome.status] at hok
    | some b =>
      rw [putBook_found id body s b hf]
      exact ⟨rfl, _, rfl⟩
  | deleteBook id =>
    change (deleteBook id s).status = some 200 at hok
    show (deleteBook id s).store.file = (deleteBook id s).store.books
      ∧ ∃ b, (deleteBook id s).trace = [.write (deleteBook id s).store.books, .send 200 b]
    by_cases h : ∃ b ∈ s.books, getProp b "id" = .str id
    · rw [deleteBook_found id s h]
      exact ⟨rfl, _, rfl⟩
    · have h' : ∀ b ∈ s.books, getProp b "id" ≠ .str id := by
        intro b hb hid; exact h ⟨b, hb, hid⟩
      rw [deleteBook_missing id s h'] at hok
      simp [Outcome.status] at hok

/-- C8 at work: renaming "Emma" in a store whose file is empty. -/
theorem C8_write_through_witness :
    (handle idC (.putBook idB retitle) ⟨[dune, emma], []⟩).store.file
        = (handle idC (.putBook idB retitle) ⟨[dune, emma], []⟩).store.books
    ∧ ∃ body, (handle idC (.putBook idB retitle) ⟨[dune, emma], []⟩).trace
        = [.write (handle idC (.putBook idB retitle) ⟨[dune, emma], []⟩).store.books,
           .send 200 body] :=
  C8_write_through idC (.putBook idB retitle) ⟨[dune, emma], []⟩ (by decide) (by decide)

/-! ## Creation appends -/

/-- C9. When `POST /books` accepts a body, the collection is the old one with
one record added last, the record `{ id: gen, ...body }`: the old records are
all there, unchanged and in their order, the length has grown by 1, and the
body of the response is the record added. -/
theorem C9_create_appends (s : Store) (gen : String) (body : Obj)
    (hok : (postBook gen body s).status = some 200) :
    (postBook gen body s).store.books = s.books ++ [newDoc gen body]
    ∧ (postBook gen body s).store.books.length = s.books.length + 1
    ∧ (∀ i, i < s.books.length → (postBook gen body s).store.books[i]? = s.books[i]?)
    ∧ (postBook gen body s).store.books.getLast? = some (newDoc gen body)
    ∧ (postBook gen body s).body = some (.obj (newDoc gen body)) := by
  rw [postBook_accept gen body s (postBook_status_200 gen body s hok)]
  refine ⟨rfl, by simp, ?_, by simp, rfl⟩
  intro i hi
  show (s.books ++ [newDoc gen body])[i]? = s.books[i]?
  exact List.getElem?_append_left hi

/-- C9 at work: "Ulysses", with a year, is added to the shelf. -/
theorem C9_create_appends_witness :
    (postBook idC [("name", .str "Ulysses"), ("year", .num 1922)] shelf).store.books
        = shelf.books ++ [newDoc idC [("name", .str "Ulysses"), ("year", .num 1922)]]
    ∧ (postBook idC [("name", .str "Ulysses"), ("year", .num 1922)] shelf).store.books.length
        = shelf.books.length + 1
    ∧ (∀ i, i < shelf.books.length →
        (postBook idC [("name", .str "Ulysses"), ("year", .num 1922)] shelf).store.books[i]?
          = shelf.books[i]?)
    ∧ (postBook idC [("name", .str "Ulysses"), ("year", .num 1922)] shelf).store.books.getLast?
        = some (newDoc idC [("name", .str "Ulysses"), ("year", .num 1922)])
    ∧ (postBook idC [("name", .str "Ulysses"), ("year", .num 1922)] shelf).body
        = some (.obj (newDoc idC [("name", .str "Ulysses"), ("year", .num 1922)])) :=
  C9_create_appends shelf idC [("name", .str "Ulysses"), ("year", .num 1922)] (by decide)

/-! ## Uniqueness of names -/

/-- C10, as stated, fails at creation: names are compared with `===`, which
holds of no array, so a body whose name is an array equal to the name of a
stored record is accepted, and two records then have the same name. -/
theorem C10_counterexample :
    uniqueNames oddShelf.books
    ∧ (postBook idB [("name", .arr [.str "Dune"])] oddShelf).status = some 200
    ∧ ¬ uniqueNames (postBook idB [("name", .arr [.str "Dune"])] oddShelf).store.books := by
  decide

/-- C10, amended. In a collection where no two records share a name,
`POST /books` with a body whose name is a primitive (a string, a number, a
boolean, null, or absent) leaves a collection where no two records share a
name; `PUT /books/:id` makes no such check: on the shelf of "Dune" and "Emma",
renaming the second to "Dune" is answered 200 and leaves two records of that
name. -/
theorem C10_unique_names_at_creation (s : Store) (gen : String) (body : Obj)
    (hprim : isPrimitive (getProp body "name") = true)
    (hu : uniqueNames s.books) :
    uniqueNames (postBook gen body s).store.books
    ∧ ∃ (s' : Store) (id : String) (body' : Obj),
        uniqueNames s'.books
        ∧ (putBook id body' s').status = some 200
        ∧ ¬ uniqueNames (putBook id body' s').store.books := by
  constructor
  · rcases postBook_cases body s with hc | hc
    · rw [postBook_reject gen body s hc]; exact hu
    · rw [postBook_accept gen body s hc]
      unfold uniqueNames at hu ⊢
      rw [List.map_append, List.nodup_append]
      refine ⟨hu, by simp, ?_⟩
      intro v hv hv'
      rw [List.mem_map] at hv
      obtain ⟨b, hb, rfl⟩ := hv
      simp only [List.map_cons, List.map_nil, List.mem_singleton] at hv'
      rw [getProp_newDoc_name] at hv'
      have hcb := hc b hb
      unfold collides at hcb
      rw [Bool.or_eq_false_iff] at hcb
      have ht : strictEq (getProp b "name") (getProp body "name") = true :=
        (strictEq_eq_true_iff _ _).mpr ⟨hv', by rw [hv']; exact hprim⟩
      rw [hcb.2] at ht
      exact absurd ht (by simp)
  · exact ⟨shelf, idB, [("name", .str "Dune")], by decide, by decide, by decide⟩

/-- C10, amended, at work: a body without a name joins the shelf. -/
theorem C10_unique_names_at_creation_witness :
    uniqueNames shelf.books
    ∧ uniqueNames (postBook idC [("year", .num 1922)] shelf).store.books
    ∧ ∃ (s' : Store) (id : String) (body' : Obj),
        uniqueNames s'.books
        ∧ (putBook id body' s').status = some 200
        ∧ ¬ uniqueNames (putBook id body' s').store.books :=
  ⟨by decide,
   C10_unique_names_at_creation shelf idC [("year", .num 1922)] (by decide) (by decide)⟩

end LibraryApi
